import Mathlib

/-!
Verification of the Chemyx syringe-pump controller (src/controller.py).

The Python code is shallowly embedded: numeric values are modelled as exact
rationals, the serial transport as an explicit outcome value passed to the
functions that would perform I/O, and the mutable object state of the
`ChemyxPump` class as an explicit record threaded through the operations.
Python string formatting is modelled for the class of values the controller
actually interpolates (finite decimal literals).
-/

set_option maxRecDepth 4000

namespace Chemyx

/-! ### String primitives

The embeddings below operate on the character list of a `String` (rather
than the byte-position-based core implementations) so that every definition
evaluates inside the kernel; each primitive models the corresponding Python
string method for the ASCII data the protocol exchanges. -/

/-- Python `s.startswith(pre)`. -/
def strStartsWith (s pre : String) : Bool :=
  pre.data.isPrefixOf s.data

/-- Python `s.strip()`: remove leading and trailing whitespace. -/
def strTrim (s : String) : String :=
  String.mk (((s.data.dropWhile Char.isWhitespace).reverse.dropWhile
    Char.isWhitespace).reverse)

/-- Python `s.lower()`. -/
def strToLower (s : String) : String :=
  String.mk (s.data.map Char.toLower)

/-- Split a character list at every separator; empty pieces are kept, as with
Python `s.split(sep)` with an explicit separator. -/
def splitChars (p : Char → Bool) : List Char → List Char → List (List Char)
  | [], acc => [acc.reverse]
  | c :: cs, acc =>
      if p c then acc.reverse :: splitChars p cs []
      else splitChars p cs (c :: acc)

/-- Split a string at every character satisfying `p`, keeping empty pieces. -/
def strSplit (s : String) (p : Char → Bool) : List String :=
  (splitChars p s.data []).map String.mk

/-- Python `str.split()` with no argument (used in `parse_limits`, line 395):
split on runs of whitespace, dropping empty fields. -/
def pySplit (s : String) : List String :=
  (strSplit s Char.isWhitespace).filter (fun p => p ≠ "")

/-- Digit-string value: `"2304"` evaluates to `2304`.  Helper for `pyFloat`. -/
def digitsVal (s : String) : Nat :=
  s.data.foldl (fun n c => 10 * n + (c.toNat - Char.toNat '0')) 0

/-- Unsigned part of Python `float(s)`: an optional integer part, an optional
single dot and an optional fractional part, with at least one digit overall. -/
def pyFloatUnsigned (s : String) : Option ℚ :=
  match strSplit s (fun c => c = '.') with
  | [i] =>
      if i ≠ "" ∧ i.data.all Char.isDigit then some (digitsVal i) else none
  | [i, f] =>
      if (i ++ f) ≠ "" ∧ i.data.all Char.isDigit ∧ f.data.all Char.isDigit then
        some ((digitsVal i : ℚ) + (digitsVal f : ℚ) / (10 : ℚ) ^ f.data.length)
      else none
  | _ => none

/-- Python `float(s)` (used by `parse_limits` on the whitespace-free fields of
the limits reply), modelled for plain decimal literals with an optional sign.
Exotic inputs accepted by CPython (exponents, `inf`, `nan`, underscores) do not
occur in the replies considered and are mapped to `none`. -/
def pyFloat (s : String) : Option ℚ :=
  if strStartsWith s "-" then
    (pyFloatUnsigned (String.mk (s.data.drop 1))).map (fun q => -q)
  else if strStartsWith s "+" then pyFloatUnsigned (String.mk (s.data.drop 1))
  else pyFloatUnsigned s

/-- Left-pad a digit string with zeros to width `k`. -/
def zeroPad (k : Nat) (s : String) : String :=
  String.mk (List.replicate (k - s.length) '0') ++ s

/-- Python `"{:.4f}".format(x)` (lines 138, 157): the value rounded to four
decimal places, always printing four fractional digits.  The sign is taken
from the mathematical value; every value the controller formats is exact at
four decimals, so no rounding tie is ever exercised. -/
def format4 (q : ℚ) : String :=
  let n : ℤ := Int.floor (|q| * 10000 + 1 / 2)
  (if q < 0 then "-" else "") ++
    toString (n.natAbs / 10000) ++ "." ++ zeroPad 4 (toString (n.natAbs % 10000))

/-- Python `str(x)` / f-string interpolation of a float (lines 135, 162, 205):
CPython prints the shortest decimal that round-trips, with at least one
fractional digit.  Modelled for values that are short decimal literals (every
value the controller interpolates this way; their reduced denominators divide
10 ^ 17): the digits of the magnitude scaled by 10 ^ 17, with the trailing
zeros of the fractional part stripped down to at least one digit. -/
def pyFloatStr (q : ℚ) : String :=
  let m : ℕ := q.num.natAbs * 10 ^ 17 / q.den
  let fracTrim : String := String.mk
    (((zeroPad 17 (toString (m % 10 ^ 17))).data.reverse.dropWhile
      (fun c => c = '0')).reverse)
  (if q < 0 then "-" else "") ++ toString (m / 10 ^ 17) ++ "."
    ++ (if fracTrim = "" then "0" else fracTrim)

/-- A Python number: CPython renders `int` and `float` values differently
(`f"{0}"` is `"0"`, `f"{0.0}"` is `"0.0"`), and the default `delay=0` of
`set_all_parameters` is an `int`. -/
inductive PyNum where
  | int (n : ℤ)
  | float (q : ℚ)
deriving DecidableEq

/-- F-string interpolation of a `PyNum`. -/
def pyNumStr : PyNum → String
  | .int n => toString n
  | .float q => pyFloatStr q

/-! ## Transaction engine (`send_command`, lines 72-120) -/

/-- Noise classification of one stripped reply line (line 109): a line is
noise iff it starts with the prompt marker `>` or starts with the stripped
command (a case-sensitive prefix match). -/
def isNoise (cmdStripped line : String) : Bool :=
  strStartsWith line ">" || strStartsWith line cmdStripped

/-- The final-response selection loop of `send_command` (lines 106-117):
walk the drained lines, remembering the latest non-noise line; return it, or
`"No response"` when none was kept (the Python truthiness test also maps an
empty final response to `"No response"`).  The classification compares
against `command.strip()`; appending the carriage return before the loop does
not change that stripped form, so the original command is stripped here. -/
def finalize (command : String) (responses : List String) : String :=
  match responses.foldl
      (fun acc r => if isNoise (strTrim command) r then acc else some r)
      (none : Option String) with
  | some r => if r = "" then "No response" else r
  | none => "No response"

/-- Outcome of the serial exchange attempted by `send_command`: either the
raw lines drained from the device, or an exception raised by the transport
(carrying the exception text). -/
inductive TransportOutcome where
  | ok (lines : List String)
  | fail (cause : String)

/-- `send_command` (lines 72-120).  `connected` models
`self.connection and self.connection.is_open`; on an open connection the
drained lines are decoded, stripped and kept only when non-empty
(lines 93-104) before the selection loop runs; any exception inside the
`try` block is converted to a `"Command failed: ..."` string (lines 119-120). -/
def send_command (connected : Bool) (io : TransportOutcome) (command : String) :
    String :=
  if connected = false then "Error: Not connected to pump"
  else
    match io with
    | .fail cause => "Command failed: " ++ cause
    | .ok lines =>
        finalize command ((lines.map strTrim).filter (fun r => r ≠ ""))

/-- Spec-side classifier (model of the words of the claim, for comparison with
`isNoise`): noise iff the line starts with `>` or is an echo of the sent
command under a case- and whitespace-insensitive prefix match. -/
def isNoise_spec (command line : String) : Bool :=
  strStartsWith line ">" ||
    strStartsWith (strToLower (strTrim line)) (strToLower (strTrim command))

/-- Spec-side notion of an error reply, from the error taxonomy of the design
(section 7): the transaction engine encodes `NotConnected` as a string
starting with `"Error"` and `CommandFailed` as a string starting with
`"Command failed"`. -/
def errorReply_spec (r : String) : Bool :=
  strStartsWith r "Error" || strStartsWith r "Command failed"

/-! ## Pump state, unit table and limits (`ChemyxPump.__init__`, lines 16-31) -/

/-- The mutable fields of `ChemyxPump` relevant to the core: the four optional
limit fields and the current unit code (`__init__`, lines 19-23). -/
structure PumpState where
  min_rate : Option ℚ
  max_rate : Option ℚ
  min_volume : Option ℚ
  max_volume : Option ℚ
  current_units : ℤ
deriving DecidableEq

/-- The state set up by `__init__` (lines 19-23): limits unset, current unit
code 0 (mL/min). -/
def initState : PumpState := ⟨none, none, none, none, 0⟩

/-- `self.UNIT_CONVERSIONS` (lines 26-31): unit name and multiplicative factor
to the base unit mL/min, keyed by the integer unit code; a missing key is
`none` (a lookup on it would raise `KeyError`). -/
def UNIT_CONVERSIONS (u : ℤ) : Option (String × ℚ) :=
  if u = 0 then some ("mL/min", 1)
  else if u = 1 then some ("mL/hr", 1 / 60)
  else if u = 2 then some ("μL/min", 1 / 1000)
  else if u = 3 then some ("μL/hr", 1 / 1000 / 60)
  else none

/-- `convert_to_base_units` (lines 417-419): multiply by the factor of the
given unit; `none` models the `KeyError` of a missing table entry. -/
def convert_to_base_units (value : ℚ) (from_units : ℤ) : Option ℚ :=
  (UNIT_CONVERSIONS from_units).map (fun p => value * p.2)

/-- `convert_from_base_units` (lines 421-423): divide by the factor of the
desired unit. -/
def convert_from_base_units (value : ℚ) (to_units : ℤ) : Option ℚ :=
  (UNIT_CONVERSIONS to_units).map (fun p => value / p.2)

/-- `parse_limits` (lines 387-415) applied to the reply of the
`"read limit parameter"` transaction: split the reply on whitespace; with at
least four fields, parse the first four as floats and assign them in the
fixed order max_rate, min_rate, max_volume, min_volume, then swap min/max
within each pair if inverted, returning success; with fewer than four fields
return failure without touching the state.  A field that fails to parse
raises inside the `try` block; the handler returns failure, keeping the
assignments already made. -/
def parse_limits (reply : String) (s : PumpState) : Bool × PumpState :=
  match pySplit reply with
  | p0 :: p1 :: p2 :: p3 :: _ =>
      match pyFloat p0 with
      | none => (false, s)
      | some mxr =>
          let s1 := { s with max_rate := some mxr }
          match pyFloat p1 with
          | none => (false, s1)
          | some mnr =>
              let s2 := { s1 with min_rate := some mnr }
              match pyFloat p2 with
              | none => (false, s2)
              | some mxv =>
                  let s3 := { s2 with max_volume := some mxv }
                  match pyFloat p3 with
                  | none => (false, s3)
                  | some mnv =>
                      let s4 := { s3 with min_volume := some mnv }
                      let s5 :=
                        if mnr > mxr then
                          { s4 with min_rate := some mxr, max_rate := some mnr }
                        else s4
                      let s6 :=
                        if mnv > mxv then
                          { s5 with min_volume := some mxv,
                                    max_volume := some mnv }
                        else s5
                      (true, s6)
  | _ => (false, s)

/-! ## High-level operations (lines 122-228)

each operation calls `self.send_command(cmd)`; that call is modelled by a
function `device : String → String` mapping the built command to the string
`send_command` returns, so that a theorem can observe exactly which command
(if any) reaches the transaction engine. -/

/-- `set_rate` (lines 122-142): convert the requested rate to base units
using the current unit code, reject it when both cached limits are present
and the converted value falls outside them (re-expressing the bounds in the
current unit, 4 decimal places), otherwise send the rate formatted to 4
decimal places.  `none` models the uncaught `KeyError` of a missing unit-table
entry (the handler catches only `ValueError`). -/
def set_rate (rate : ℚ) (device : String → String) (s : PumpState) :
    Option String :=
  match convert_to_base_units rate s.current_units with
  | none => none
  | some rate_ml_min =>
      match s.min_rate, s.max_rate with
      | some mn, some mx =>
          if rate_ml_min < mn ∨ rate_ml_min > mx then
            match convert_from_base_units mn s.current_units,
                  convert_from_base_units mx s.current_units,
                  UNIT_CONVERSIONS s.current_units with
            | some mnc, some mxc, some p =>
                some ("Rate " ++ pyFloatStr rate ++ " is outside pump limits ("
                  ++ format4 mnc ++ " to " ++ format4 mxc ++ " " ++ p.1 ++ ")")
            | _, _, _ => none
          else some (device ("set rate " ++ format4 rate))
      | _, _ => some (device ("set rate " ++ format4 rate))

/-- `set_volume` (lines 144-166): take the magnitude of the requested volume,
negate it for withdrawal mode, format to 4 decimal places, check the
magnitude against the cached volume limits, and send.  Python formats the
signed float `vol`; the sign and the magnitude are rendered separately here
so that the model also matches CPython on the signed zero
(`"{:.4f}".format(-0.0)` is `"-0.0000"`). -/
def set_volume (volume : ℚ) (mode : String) (device : String → String)
    (s : PumpState) : String :=
  let vol : ℚ := |volume|
  let formatted_vol : String :=
    (if mode = "withdrawal" then "-" else "") ++ format4 vol
  match s.min_volume, s.max_volume with
  | some mn, some mx =>
      if vol < mn ∨ vol > mx then
        "Volume " ++ pyFloatStr vol ++ " is outside pump limits ("
          ++ pyFloatStr mn ++ " to " ++ pyFloatStr mx ++ " mL)"
      else device ("set volume " ++ formatted_vol)
  | _, _ => device ("set volume " ++ formatted_vol)

/-- `set_diameter` (lines 168-170): no limit check, no 4-decimal formatting;
the float argument is interpolated with the default `str` rendering. -/
def set_diameter (diameter : ℚ) (device : String → String) : String :=
  device ("set diameter " ++ pyFloatStr diameter)

/-- `set_all_parameters` (lines 191-208): one composite `hexw2` command; the
mode bit is 1 for withdrawal and 0 otherwise, the volume is sent as a
magnitude, `" start"` is appended when requested.  All numeric fields are
interpolated with the default Python rendering (no 4-decimal formatting);
`delay` is a `PyNum` because its Python default value is the `int` 0. -/
def set_all_parameters (diameter volume rate : ℚ) (delay : PyNum)
    (mode : String) (start_immediately : Bool) (device : String → String) :
    String :=
  let mode_val : ℕ := if mode = "withdrawal" then 1 else 0
  let command :=
    "hexw2 0 " ++ toString mode_val ++ " " ++ pyFloatStr diameter ++ " "
      ++ pyFloatStr |volume| ++ " " ++ pyFloatStr rate ++ " " ++ pyNumStr delay
  let command := if start_immediately then command ++ " start" else command
  device command

/-- `set_units` (lines 214-228): a code outside 0..3 is rejected without any
transaction; otherwise `set units {code}` is sent and the stored unit code is
updated exactly when the reply does not start with `"Error"`. -/
def set_units (unit_code : ℤ) (device : String → String) (s : PumpState) :
    String × PumpState :=
  if 0 ≤ unit_code ∧ unit_code < 4 then
    let response := device ("set units " ++ toString unit_code)
    if strStartsWith response "Error" then (response, s)
    else (response, { s with current_units := unit_code })
  else ("Error: Unit code must be 0-3", s)

/-- The implicit invariant on the stored unit code: it stays in 0..3, so the
unit-table lookups performed by the conversion paths are defined. -/
def unitsInv (s : PumpState) : Prop :=
  0 ≤ s.current_units ∧ s.current_units < 4

/-- The selection loop of `finalize`, which overwrites the accumulator with
every line `q` does not reject, computes the last line surviving the filter,
or keeps the initial accumulator when none survives. -/
theorem foldl_keep_last (q : String → Bool) :
    ∀ (l : List String) (a : Option String),
      l.foldl (fun acc r => if q r then acc else some r) a =
        ((l.filter (fun r => !q r)).getLast?).or a := by
  intro l
  induction l with
  | nil => intro a; simp
  | cons x xs ih =>
      intro a
      by_cases hx : q x
      · rw [List.foldl_cons, if_pos hx, ih,
          List.filter_cons_of_neg (by simp [hx])]
      · rw [List.foldl_cons, if_neg hx, ih,
          List.filter_cons_of_pos (by simp [hx])]
        cases xs.filter (fun r => !q r) with
        | nil => simp
        | cons y ys =>
            have hne : (y :: ys) ≠ [] := by simp
            obtain ⟨z, hz⟩ := Option.isSome_iff_exists.mp
              (List.getLast?_isSome.mpr hne)
            rw [List.getLast?_cons_cons, hz]
            simp [Option.or]

/-- `parse_limits` never touches the stored unit code, whatever the reply. -/
theorem parse_limits_preserves_units (reply : String) (s : PumpState) :
    (parse_limits reply s).2.current_units = s.current_units := by
  unfold parse_limits
  rcases pySplit reply with _ | ⟨p0, _ | ⟨p1, _ | ⟨p2, _ | ⟨p3, rest⟩⟩⟩⟩
  · rfl
  · rfl
  · rfl
  · rfl
  · rcases hp0 : pyFloat p0 with _ | mxr
    · simp only [hp0]
    rcases hp1 : pyFloat p1 with _ | mnr
    · simp only [hp0, hp1]
    rcases hp2 : pyFloat p2 with _ | mxv
    · simp only [hp0, hp1, hp2]
    rcases hp3 : pyFloat p3 with _ | mnv
    · simp only [hp0, hp1, hp2, hp3]
    simp only [hp0, hp1, hp2, hp3]
    split_ifs <;> rfl

/-- C1, counterexample: the claim classifies a line as echo noise under a
case-insensitive prefix match, but the code uses the case-sensitive
`startswith`.  For command `"set rate 1.0000"` and the single drained line
`"SET RATE 1.0000"`, the claimed classifier leaves no candidate at all, yet
the result of the selection loop is that noise line. -/
theorem C1_last_candidate_counterexample :
    finalize "set rate 1.0000" ["SET RATE 1.0000"] = "SET RATE 1.0000"
    ∧ isNoise_spec "set rate 1.0000" "SET RATE 1.0000" = true
    ∧ (["SET RATE 1.0000"].filter
        (fun r => !isNoise_spec "set rate 1.0000" r)) = ([] : List String) := by
  refine ⟨by decide, by decide, by decide⟩

/-- C1 (amended): the result of the selection loop is the last drained line
that is a candidate — where a line is noise exactly when it starts with the
prompt marker `>` or starts with the whitespace-stripped sent command under a
case-sensitive prefix match — and `"No response"` when no candidate remains;
in particular, for command `"set rate 1.0000"` and drained lines
`["set rate 1.0000", ">", "OK: rate set"]` the result is `"OK: rate set"`. -/
theorem C1_last_candidate :
    (∀ (command : String) (responses : List String),
      finalize command responses =
        match (responses.filter
            (fun r => !isNoise (strTrim command) r)).getLast? with
        | some r => if r = "" then "No response" else r
        | none => "No response")
    ∧ finalize "set rate 1.0000" ["set rate 1.0000", ">", "OK: rate set"]
        = "OK: rate set" := by
  constructor
  · intro command responses
    unfold finalize
    rw [foldl_keep_last]
    cases (responses.filter (fun r => !isNoise (strTrim command) r)).getLast? with
    | none => simp [Option.or]
    | some r => simp [Option.or]
  · decide

/-- C2: on an open connection, when every drained line is noise (prompt or
echo, after the per-line strip; blank lines are dropped), or when no line
arrived at all, the transaction returns the literal string `"No response"`. -/
theorem C2_all_noise_no_response :
    ∀ (command : String) (lines : List String),
      (∀ l ∈ lines,
        isNoise (strTrim command) (strTrim l) = true ∨ strTrim l = "") →
      send_command true (.ok lines) command = "No response" := by
  intro command lines h
  have hresp : ∀ r ∈ (lines.map strTrim).filter (fun r => r ≠ ""),
      isNoise (strTrim command) r = true := by
    intro r hr
    rw [List.mem_filter] at hr
    obtain ⟨hmem, hne⟩ := hr
    rw [List.mem_map] at hmem
    obtain ⟨l, hl, rfl⟩ := hmem
    rcases h l hl with hn | hblank
    · exact hn
    · exact absurd hblank (by simpa using hne)
  have hfil : ((lines.map strTrim).filter (fun r => r ≠ "")).filter
      (fun r => !isNoise (strTrim command) r) = [] := by
    rw [List.filter_eq_nil_iff]
    intro r hr
    simp [hresp r hr]
  show finalize command ((lines.map strTrim).filter (fun r => r ≠ "")) =
    "No response"
  unfold finalize
  rw [foldl_keep_last, hfil]
  rfl

/-- C2, witness: drained lines `[">"]` alone yield `"No response"`. -/
theorem C2_all_noise_no_response_witness :
    send_command true (.ok [">"]) "status" = "No response" :=
  C2_all_noise_no_response "status" [">"] (by decide)

/-- C3: for each unit code in 0..3 and every positive rational, converting to
base units and back returns the value exactly, hence within the claimed
tolerance of a billionth. -/
theorem C3_unit_roundtrip :
    ∀ (u : ℤ), (u = 0 ∨ u = 1 ∨ u = 2 ∨ u = 3) → ∀ (x : ℚ), 0 < x →
      ∃ y r, convert_to_base_units x u = some y ∧
        convert_from_base_units y u = some r ∧ r = x ∧
        |r - x| ≤ 1 / 1000000000 := by
  intro u hu x _
  rcases hu with rfl | rfl | rfl | rfl
  · refine ⟨x * 1, x, rfl, ?_, rfl, by simp⟩
    simp [convert_from_base_units, UNIT_CONVERSIONS]
  · refine ⟨x * (1 / 60), x, rfl, ?_, rfl, by simp⟩
    simp only [convert_from_base_units, UNIT_CONVERSIONS]
    norm_num
  · refine ⟨x * (1 / 1000), x, rfl, ?_, rfl, by simp⟩
    simp only [convert_from_base_units, UNIT_CONVERSIONS]
    norm_num
  · refine ⟨x * (1 / 1000 / 60), x, rfl, ?_, rfl, by simp⟩
    simp only [convert_from_base_units, UNIT_CONVERSIONS]
    norm_num

/-- C3, witness: round-trip of 7 through mL/hr. -/
theorem C3_unit_roundtrip_witness :
    ∃ y r, convert_to_base_units 7 1 = some y ∧
      convert_from_base_units y 1 = some r ∧ r = 7 ∧
      |r - 7| ≤ 1 / 1000000000 :=
  C3_unit_roundtrip 1 (Or.inr (Or.inl rfl)) 7 (by norm_num)

/-- C9: the transaction is total over its error cases: with no open
connection it returns the not-connected error without consulting the
transport at all, and a transport exception is converted into a
command-failed string carrying the cause; the caller always receives a
string, never a propagated exception. -/
theorem C9_transaction_error_totality :
    (∀ (io : TransportOutcome) (command : String),
        send_command false io command = "Error: Not connected to pump")
    ∧ (∀ (command cause : String),
        send_command true (.fail cause) command = "Command failed: " ++ cause) := by
  constructor
  · intro io command; rfl
  · intro command cause; rfl

/-- C4, counterexample: the claim says the limits refresh succeeds exactly
when the reply has exactly four whitespace-separated numbers, but the code
tests `len(parts) >= 4`: a five-field reply also succeeds. -/
theorem C4_parse_limits_counterexample :
    (parse_limits "10.0 0.5 5.0 0.1 99" initState).1 = true
    ∧ (pySplit "10.0 0.5 5.0 0.1 99").length = 5 := by
  constructor
  · simp [parse_limits, pySplit, strSplit, splitChars, pyFloat,
      pyFloatUnsigned, strStartsWith, digitsVal, initState]
  · decide

/-- C4 (amended): the limits refresh succeeds exactly when the reply splits
into at least four whitespace-separated fields whose first four parse as
numbers; those four are assigned positionally as max_rate, min_rate,
max_volume, min_volume, swapping min and max within each pair if inverted
(so min ≤ max holds on success); on fewer than four fields the state is
untouched and the call reports failure; it never raises.  The replies
`"10.0 0.5 5.0 0.1"` and the inverted `"0.5 10.0 0.1 5.0"` both yield
min_rate 0.5, max_rate 10, min_volume 0.1, max_volume 5. -/
theorem C4_parse_limits :
    (∀ (reply : String) (s : PumpState),
        (pySplit reply).length < 4 → parse_limits reply s = (false, s))
    ∧ (∀ (reply : String) (s : PumpState),
        (parse_limits reply s).1 = true ↔
          ∃ p0 p1 p2 p3 rest, pySplit reply = p0 :: p1 :: p2 :: p3 :: rest
            ∧ (pyFloat p0).isSome ∧ (pyFloat p1).isSome
            ∧ (pyFloat p2).isSome ∧ (pyFloat p3).isSome)
    ∧ (∀ (reply : String) (s t : PumpState),
        parse_limits reply s = (true, t) →
          ∃ mn mx mnv mxv, t.min_rate = some mn ∧ t.max_rate = some mx
            ∧ mn ≤ mx ∧ t.min_volume = some mnv ∧ t.max_volume = some mxv
            ∧ mnv ≤ mxv)
    ∧ parse_limits "10.0 0.5 5.0 0.1" initState
        = (true, ⟨some (1/2), some 10, some (1/10), some 5, 0⟩)
    ∧ parse_limits "0.5 10.0 0.1 5.0" initState
        = (true, ⟨some (1/2), some 10, some (1/10), some 5, 0⟩) := by
  refine ⟨?_, ?_, ?_,
    by simp [parse_limits, pySplit, strSplit, splitChars, pyFloat,
        pyFloatUnsigned, strStartsWith, digitsVal, initState]; norm_num,
    by simp [parse_limits, pySplit, strSplit, splitChars, pyFloat,
        pyFloatUnsigned, strStartsWith, digitsVal, initState]; norm_num⟩
  · intro reply s h
    unfold parse_limits
    rcases hsp : pySplit reply with _ | ⟨p0, _ | ⟨p1, _ | ⟨p2, _ | ⟨p3, rest⟩⟩⟩⟩
    · rfl
    · rfl
    · rfl
    · rfl
    · rw [hsp] at h; simp at h; omega
  · intro reply s
    unfold parse_limits
    rcases hsp : pySplit reply with _ | ⟨p0, _ | ⟨p1, _ | ⟨p2, _ | ⟨p3, rest⟩⟩⟩⟩
    · simp [hsp]
    · simp [hsp]
    · simp [hsp]
    · simp [hsp]
    · cases hp0 : pyFloat p0 <;> cases hp1 : pyFloat p1 <;>
        cases hp2 : pyFloat p2 <;> cases hp3 : pyFloat p3 <;>
        simp [hsp, hp0, hp1, hp2, hp3] <;>
        first
          | (intros; subst_vars; simp_all)
          | exact ⟨p0, p1, p2, p3, ⟨rfl, rfl, rfl, rfl⟩, by simp [hp0],
              by simp [hp1], by simp [hp2], by simp [hp3]⟩
  · intro reply s t h
    unfold parse_limits at h
    rcases hsp : pySplit reply with _ | ⟨p0, _ | ⟨p1, _ | ⟨p2, _ | ⟨p3, rest⟩⟩⟩⟩ <;>
      rw [hsp] at h
    · simp at h
    · simp at h
    · simp at h
    · simp at h
    · rcases hp0 : pyFloat p0 with _ | mxr <;> simp only [hp0] at h
      · simp at h
      rcases hp1 : pyFloat p1 with _ | mnr <;> simp only [hp1] at h
      · simp at h
      rcases hp2 : pyFloat p2 with _ | mxv <;> simp only [hp2] at h
      · simp at h
      rcases hp3 : pyFloat p3 with _ | mnv <;> simp only [hp3] at h
      · simp at h
      have ht : _ = t := congrArg Prod.snd h
      subst ht
      dsimp only
      split_ifs with h1 h2 h2
      · exact ⟨mxr, mnr, mxv, mnv, rfl, rfl, le_of_lt h2, rfl, rfl, le_of_lt h1⟩
      · exact ⟨mnr, mxr, mxv, mnv, rfl, rfl, not_lt.mp h2, rfl, rfl,
          le_of_lt h1⟩
      · exact ⟨mxr, mnr, mnv, mxv, rfl, rfl, le_of_lt h2, rfl, rfl,
          not_lt.mp h1⟩
      · exact ⟨mnr, mxr, mnv, mxv, rfl, rfl, not_lt.mp h2, rfl, rfl,
          not_lt.mp h1⟩

/-- C4, witness: a two-field reply fails and leaves the state untouched. -/
theorem C4_parse_limits_witness :
    parse_limits "10.0 0.5" initState = (false, initState) :=
  C4_parse_limits.1 "10.0 0.5" initState (by decide)

/-- C5: the rate check converts the request to base units with the current
unit factor and rejects exactly when the converted value leaves the cached
interval, the check being skipped when a limit is unset; the rejection
message re-expresses both bounds in the current unit to 4 decimal places.
With limits 0.5..10 mL/min and current unit mL/hr, 601 is rejected with
bounds 30.0000 to 600.0000 mL/hr and 600 is accepted. -/
theorem C5_set_rate_check :
    (∀ (rate : ℚ) (device : String → String) (s : PumpState)
        (name : String) (f : ℚ),
        UNIT_CONVERSIONS s.current_units = some (name, f) →
        s.min_rate = none ∨ s.max_rate = none →
        set_rate rate device s = some (device ("set rate " ++ format4 rate)))
    ∧ (∀ (rate : ℚ) (device : String → String) (s : PumpState)
        (name : String) (f mn mx : ℚ),
        UNIT_CONVERSIONS s.current_units = some (name, f) →
        s.min_rate = some mn → s.max_rate = some mx →
        ((rate * f < mn ∨ rate * f > mx) →
            set_rate rate device s =
              some ("Rate " ++ pyFloatStr rate ++ " is outside pump limits ("
                ++ format4 (mn / f) ++ " to " ++ format4 (mx / f) ++ " "
                ++ name ++ ")"))
          ∧ (mn ≤ rate * f → rate * f ≤ mx →
            set_rate rate device s =
              some (device ("set rate " ++ format4 rate))))
    ∧ set_rate 601 (fun c => c) ⟨some (1/2), some 10, none, none, 1⟩
        = some "Rate 601.0 is outside pump limits (30.0000 to 600.0000 mL/hr)"
    ∧ set_rate 600 (fun c => c) ⟨some (1/2), some 10, none, none, 1⟩
        = some "set rate 600.0000" := by
  refine ⟨?_, ?_,
    by norm_num [set_rate, convert_to_base_units, convert_from_base_units,
        UNIT_CONVERSIONS, pyFloatStr, format4, zeroPad, abs_of_pos]; decide,
    by norm_num [set_rate, convert_to_base_units, convert_from_base_units,
        UNIT_CONVERSIONS, format4, zeroPad, abs_of_pos]; decide⟩
  · intro rate device s name f hu hnone
    unfold set_rate convert_to_base_units
    rw [hu]
    rcases hnone with h1 | h1 <;>
      rcases hmn : s.min_rate with _ | mn <;>
        rcases hmx : s.max_rate with _ | mx <;>
          simp_all
  · intro rate device s name f mn mx hu hmn hmx
    constructor
    · intro hout
      unfold set_rate convert_to_base_units convert_from_base_units
      simp only [hu, hmn, hmx, Option.map_some']
      rw [if_pos hout]
    · intro h1 h2
      have hc : ¬(rate * f < mn ∨ rate * f > mx) := by
        push_neg
        exact ⟨h1, h2⟩
      unfold set_rate convert_to_base_units
      simp only [hu, hmn, hmx, Option.map_some']
      rw [if_neg hc]

/-- C5, witness: with limits unset the check is skipped and the formatted
command is sent. -/
theorem C5_set_rate_check_witness :
    set_rate 7 (fun c => c) initState
      = some ((fun c : String => c) ("set rate " ++ format4 7)) :=
  C5_set_rate_check.1 7 (fun c => c) initState "mL/min" 1 (by decide)
    (Or.inl rfl)

/-- C6: the volume command carries the magnitude of the requested value
formatted to 4 decimal places, signed negative exactly in withdrawal mode;
the magnitude is validated against the cached volume limits; in particular
withdrawal of 2.0 sends `set volume -2.0000` and infusion of 2.0 sends
`set volume 2.0000`. -/
theorem C6_set_volume_sign :
    (∀ (v : ℚ) (mode : String) (device : String → String) (s : PumpState),
        s.min_volume = none ∨ s.max_volume = none →
        set_volume v mode device s =
          device ("set volume " ++
            ((if mode = "withdrawal" then "-" else "") ++ format4 |v|)))
    ∧ (∀ (v : ℚ) (mode : String) (device : String → String) (s : PumpState)
        (mn mx : ℚ), s.min_volume = some mn → s.max_volume = some mx →
        mn ≤ |v| → |v| ≤ mx →
        set_volume v mode device s =
          device ("set volume " ++
            ((if mode = "withdrawal" then "-" else "") ++ format4 |v|)))
    ∧ (∀ (v : ℚ) (mode : String) (device : String → String) (s : PumpState)
        (mn mx : ℚ), s.min_volume = some mn → s.max_volume = some mx →
        (|v| < mn ∨ |v| > mx) →
        set_volume v mode device s =
          "Volume " ++ pyFloatStr |v| ++ " is outside pump limits ("
            ++ pyFloatStr mn ++ " to " ++ pyFloatStr mx ++ " mL)")
    ∧ set_volume 2 "withdrawal" (fun c => c) initState = "set volume -2.0000"
    ∧ set_volume 2 "infusion" (fun c => c) initState = "set volume 2.0000" := by
  refine ⟨?_, ?_, ?_,
    by norm_num [set_volume, initState, format4, zeroPad, abs_of_pos]; decide,
    by norm_num [set_volume, initState, format4, zeroPad, abs_of_pos]; decide⟩
  · intro v mode device s hnone
    unfold set_volume
    rcases hnone with h1 | h1 <;>
      rcases hmn : s.min_volume with _ | mn <;>
        rcases hmx : s.max_volume with _ | mx <;>
          simp_all
  · intro v mode device s mn mx hmn hmx h1 h2
    have hc : ¬(|v| < mn ∨ |v| > mx) := by
      push_neg
      exact ⟨h1, h2⟩
    unfold set_volume
    simp only [hmn, hmx]
    rw [if_neg hc]
  · intro v mode device s mn mx hmn hmx hout
    unfold set_volume
    simp only [hmn, hmx]
    rw [if_pos hout]

/-- C6, witness: with limits unset, infusion of 3 sends the 4-decimal
magnitude with no sign. -/
theorem C6_set_volume_sign_witness :
    set_volume 3 "infusion" (fun c => c) initState
      = (fun c : String => c) ("set volume " ++
          ((if ("infusion" : String) = "withdrawal" then "-" else "")
            ++ format4 |(3 : ℚ)|)) :=
  C6_set_volume_sign.1 3 "infusion" (fun c => c) initState (Or.inl rfl)

/-- C7, counterexample: the claim says the stored unit is updated exactly
when the device reply is not an error, but the code only tests for the
`"Error"` prefix: a `CommandFailed` reply — an error in the design's own
taxonomy, produced by the transaction engine on an I/O failure — still
updates the stored unit code. -/
theorem C7_set_units_counterexample :
    errorReply_spec "Command failed: boom" = true
    ∧ (set_units 2 (fun _ => "Command failed: boom") initState).2.current_units
        = 2
    ∧ initState.current_units ≠ 2 := by
  refine ⟨by decide, by decide, by decide⟩

/-- C7 (amended): a code outside 0..3 yields the invalid-unit error with no
transaction (the transport is never consulted) and an unchanged state; for a
code in 0..3 the command `set units {code}` is sent and the stored unit is
updated exactly when the reply does not start with `"Error"` (in particular a
`Command failed:` reply still updates it); the only other state-returning
operation, the limits refresh, never changes the stored unit. -/
theorem C7_set_units :
    (∀ (code : ℤ) (device : String → String) (s : PumpState),
        ¬(0 ≤ code ∧ code < 4) →
        set_units code device s = ("Error: Unit code must be 0-3", s))
    ∧ (∀ (code : ℤ) (device device2 : String → String) (s : PumpState),
        ¬(0 ≤ code ∧ code < 4) →
        set_units code device s = set_units code device2 s)
    ∧ (∀ (code : ℤ) (device : String → String) (s : PumpState),
        0 ≤ code → code < 4 →
        (set_units code device s).1 = device ("set units " ++ toString code)
        ∧ (set_units code device s).2.current_units =
            (if strStartsWith (device ("set units " ++ toString code)) "Error"
              then s.current_units else code))
    ∧ (∀ (reply : String) (s : PumpState),
        (parse_limits reply s).2.current_units = s.current_units) := by
  refine ⟨?_, ?_, ?_, parse_limits_preserves_units⟩
  · intro code device s h
    unfold set_units
    rw [if_neg h]
  · intro code device device2 s h
    unfold set_units
    rw [if_neg h, if_neg h]
  · intro code device s h1 h2
    unfold set_units
    rw [if_pos ⟨h1, h2⟩]
    dsimp only
    constructor
    · split_ifs <;> rfl
    · split_ifs <;> rfl

/-- C7, witness: code 5 is rejected without a transaction. -/
theorem C7_set_units_witness :
    set_units 5 (fun c => c) initState
      = ("Error: Unit code must be 0-3", initState) :=
  C7_set_units.1 5 (fun c => c) initState (by decide)

/-- C8, counterexample: the claim says every numeric argument is formatted to
exactly 4 decimal places, but `set_all_parameters` (and `set_diameter`)
interpolate with the default Python float rendering: the composite command
for diameter 23.04, volume 1.2, rate 3.0 is `hexw2 0 0 23.04 1.2 3.0 0`, not
the claimed `hexw2 0 0 23.0400 1.2000 3.0000 0`. -/
theorem C8_wire_format_counterexample :
    set_all_parameters 23.04 1.2 3 (.int 0) "infusion" false (fun c => c)
      = "hexw2 0 0 23.04 1.2 3.0 0"
    ∧ "hexw2 0 0 23.04 1.2 3.0 0" ≠ "hexw2 0 0 23.0400 1.2000 3.0000 0"
    ∧ set_diameter 23.04 (fun c => c) = "set diameter 23.04" := by
  refine ⟨by norm_num [set_all_parameters, pyNumStr, pyFloatStr, zeroPad,
      abs_of_pos]; decide,
    by decide,
    by norm_num [set_diameter, pyFloatStr, zeroPad]; decide⟩

/-- C8 (amended): only `set_rate` and `set_volume` format their numeric
argument to 4 decimal places; `set_all_parameters` builds the composite
command `hexw2 0 {mode_bit} {diameter} {|volume|} {rate} {delay}` (with
`start` appended when requested, mode bit 1 for withdrawal else 0) with its
numeric fields in the default Python rendering, e.g.
`hexw2 0 0 23.04 1.2 3.0 0`. -/
theorem C8_wire_format :
    (∀ (diameter volume rate : ℚ) (delay : PyNum) (mode : String)
        (device : String → String),
      set_all_parameters diameter volume rate delay mode false device
        = device ("hexw2 0 " ++ toString (if mode = "withdrawal" then 1 else 0)
            ++ " " ++ pyFloatStr diameter ++ " " ++ pyFloatStr |volume| ++ " "
            ++ pyFloatStr rate ++ " " ++ pyNumStr delay))
    ∧ (∀ (diameter volume rate : ℚ) (delay : PyNum) (mode : String)
        (device : String → String),
      set_all_parameters diameter volume rate delay mode true device
        = device (("hexw2 0 "
            ++ toString (if mode = "withdrawal" then 1 else 0)
            ++ " " ++ pyFloatStr diameter ++ " " ++ pyFloatStr |volume| ++ " "
            ++ pyFloatStr rate ++ " " ++ pyNumStr delay) ++ " start"))
    ∧ set_all_parameters 23.04 1.2 3 (.int 0) "infusion" false (fun c => c)
        = "hexw2 0 0 23.04 1.2 3.0 0"
    ∧ (∀ (rate : ℚ) (device : String → String),
        set_rate rate device initState
          = some (device ("set rate " ++ format4 rate))) := by
  refine ⟨?_, ?_, ?_, ?_⟩
  · intro diameter volume rate delay mode device
    rfl
  · intro diameter volume rate delay mode device
    rfl
  · norm_num [set_all_parameters, pyNumStr, pyFloatStr, zeroPad, abs_of_pos]
    decide
  · intro rate device
    rfl

/-- C10: the stored unit code starts at 0 and stays in 0..3 — the invalid
codes are rejected before assignment and the limits refresh never touches
it — so every lookup of the conversion table made by the rate paths is
defined. -/
theorem C10_units_invariant :
    unitsInv initState
    ∧ (∀ (code : ℤ) (device : String → String) (s : PumpState),
        unitsInv s → unitsInv (set_units code device s).2)
    ∧ (∀ (reply : String) (s : PumpState),
        unitsInv s → unitsInv (parse_limits reply s).2)
    ∧ (∀ s : PumpState, unitsInv s →
        (UNIT_CONVERSIONS s.current_units).isSome = true)
    ∧ (∀ (s : PumpState) (x : ℚ) (device : String → String), unitsInv s →
        (set_rate x device s).isSome = true) := by
  have hcases : ∀ s : PumpState, unitsInv s →
      s.current_units = 0 ∨ s.current_units = 1 ∨ s.current_units = 2 ∨
        s.current_units = 3 := by
    intro s hs
    obtain ⟨h1, h2⟩ := hs
    omega
  refine ⟨⟨by decide, by decide⟩, ?_, ?_, ?_, ?_⟩
  · intro code device s hs
    unfold set_units
    by_cases hc : 0 ≤ code ∧ code < 4
    · rw [if_pos hc]
      dsimp only
      split_ifs
      · exact hs
      · exact ⟨hc.1, hc.2⟩
    · rw [if_neg hc]
      exact hs
  · intro reply s hs
    unfold unitsInv
    rw [parse_limits_preserves_units]
    exact hs
  · intro s hs
    rcases hcases s hs with h | h | h | h <;> simp [UNIT_CONVERSIONS, h]
  · intro s x device hs
    rcases hcases s hs with h | h | h | h <;>
      rcases hmn : s.min_rate with _ | mn <;>
        rcases hmx : s.max_rate with _ | mx <;>
          simp only [set_rate, convert_to_base_units, convert_from_base_units,
            UNIT_CONVERSIONS, h, hmn, hmx, Option.map_some] <;>
          norm_num <;> split_ifs <;> simp

/-- C10, witness: the invariant holds after a limits refresh from the
initial state. -/
theorem C10_units_invariant_witness :
    unitsInv (parse_limits "10.0 0.5 5.0 0.1" initState).2 :=
  C10_units_invariant.2.2.1 "10.0 0.5 5.0 0.1" initState
    C10_units_invariant.1

end Chemyx
